import Mathlib

/-!
Shallow embedding of the transcription app's front-end logic
(`src/App.vue` of pawwvw/stt-app): the reactive state fields, the three
operations `openFileDialog`, `removeFile`, `transcribeAudio`, and a small
operational model of the UI-mediated event loop (the trigger button is
disabled while `isProcessing` is true).
-/

/-- The `File`-like object stored in `audioFile` (`{ name, size }`). -/
structure AudioFile where
  name : String
  size : Nat
deriving Repr, DecidableEq

/-- The component's reactive state: `audioFile`, `audioFilePath`,
`isProcessing`, `transcription`, `error` refs of `App.vue`. -/
structure AppState where
  audioFile : Option AudioFile
  audioFilePath : String
  isProcessing : Bool
  transcription : String
  error : String
deriving Repr, DecidableEq

/-- Initial values of the refs: no file, empty path, not processing,
empty transcription and error strings. -/
def initState : AppState :=
  { audioFile := none, audioFilePath := "", isProcessing := false,
    transcription := "", error := "" }

/-- The structured outcome of the `transcribe_audio` engine command:
`{ text: string; success: boolean; error?: string }`. -/
structure TranscribeResult where
  text : String
  success : Bool
  error : Option String
deriving Repr, DecidableEq

/-- Outcome of the awaited `invoke` call: either it returns a
`TranscribeResult`, or the call itself throws (transport failure) with a
description that JS string-interpolates to `e`. -/
inductive InvokeOutcome where
  | ok (r : TranscribeResult)
  | threw (e : String)
deriving Repr, DecidableEq

/-- Outcome of the native file picker `open` call: a selected path string,
`null` (user cancelled), or a thrown error interpolating to `e`. -/
inductive PickOutcome where
  | picked (path : String)
  | cancelled
  | errored (e : String)
deriving Repr, DecidableEq

/-- `selected.split(/[/\\]/).pop() || "audio.mp3"`: the final
path segment, or the default when it is empty. -/
def fileNameOf (path : String) : String :=
  let parts := path.split (fun c => c = '/' || c = '\\')
  match parts.getLast? with
  | some s => if s = "" then "audio.mp3" else s
  | none => "audio.mp3"

/-- `openFileDialog` from `App.vue`, applied to the picker's outcome: a
returned path sets `audioFilePath`, builds the `audioFile` object with the
derived name and size 0, and clears `error` and `transcription`; `null`
(cancel) changes nothing; a thrown picker error sets `error`. -/
def openFileDialog (s : AppState) (o : PickOutcome) : AppState :=
  match o with
  | .picked p =>
      { s with audioFilePath := p
               audioFile := some { name := fileNameOf p, size := 0 }
               error := ""
               transcription := "" }
  | .cancelled => s
  | .errored e => { s with error := "Ошибка при выборе файла: " ++ e }

/-- `removeFile` from `App.vue`: nulls the file, empties the path, the
transcription and the error. -/
def removeFile (s : AppState) : AppState :=
  { s with audioFile := none, audioFilePath := "",
           transcription := "", error := "" }

/-- Result of the synchronous head of `transcribeAudio`: either the guard
`!audioFile.value || !audioFilePath.value` fires and the call returns
after setting the validation error (no request is created), or the
request is started (`isProcessing := true`, `error` and `transcription`
cleared) and the engine call is issued. -/
inductive StartResult where
  | rejected (s : AppState)
  | started (s : AppState)
deriving Repr, DecidableEq

/-- `true` iff the start result is `started`. -/
def StartResult.isStarted : StartResult → Bool
  | .started _ => true
  | .rejected _ => false

/-- The state carried by the start result. -/
def StartResult.state : StartResult → AppState
  | .started s => s
  | .rejected s => s

/-- The synchronous head of `transcribeAudio` in `App.vue`: if no file
object or an empty path (JS falsiness), set `error` to the validation
message and return without creating a request; otherwise set
`isProcessing := true`, clear `error` and `transcription`, and issue the
engine call. Note the guard checks only the selection, not
`isProcessing`. -/
def transcribeStart (s : AppState) : StartResult :=
  if s.audioFile = none ∨ s.audioFilePath = "" then
    .rejected { s with error := "Файл не выбран" }
  else
    .started { s with isProcessing := true, error := "", transcription := "" }

/-- The generic fallback message of the engine-failure branch. -/
def fallbackError : String := "Неизвестная ошибка при расшифровке"

/-- JS `a || b` on the optional diagnostic string: `undefined` and the
empty string are falsy, so both select the fallback. -/
def jsOrElse (o : Option String) (d : String) : String :=
  match o with
  | some m => if m = "" then d else m
  | none => d

/-- The continuation of `transcribeAudio` once the awaited `invoke`
resolves: on `success` store `result.text` (a diagnostic alongside
success is only `console.warn`ed); on failure store
`result.error || fallback`; on a throw store the interpolated transport
message; the `finally` clause resets `isProcessing` in every case. -/
def transcribeFinish (s : AppState) (o : InvokeOutcome) : AppState :=
  match o with
  | .ok r =>
      if r.success then
        { s with transcription := r.text, isProcessing := false }
      else
        { s with error := jsOrElse r.error fallbackError, isProcessing := false }
  | .threw e =>
      { s with error := "Ошибка при расшифровке: " ++ e, isProcessing := false }

/-- The template's trigger button (`btn-primary`) is rendered inside the
`v-else` branch (a file is selected) and carries
`:disabled="isProcessing"`: the user can click it iff a file is selected
and no request is in flight. -/
def buttonEnabled (s : AppState) : Bool :=
  s.audioFile.isSome && !s.isProcessing

/-- System state for the event-loop model: the component state plus the
number of engine calls issued and not yet resolved. -/
structure Sys where
  app : AppState
  inflight : Nat
deriving Repr, DecidableEq

/-- Events of the UI-mediated event loop: a picker interaction resolving,
the remove button, a click on the (enabled) trigger button, and the
resolution of an outstanding engine call. -/
inductive Op where
  | pick (o : PickOutcome)
  | clear
  | trigger
  | resolve (o : InvokeOutcome)
deriving Repr, DecidableEq

/-- One step of the event loop. `trigger` has effect only while the
button is enabled (selected file, not processing); a started request
increments the in-flight count; `resolve` consumes an outstanding call
and runs the continuation. -/
def uiStep (s : Sys) (op : Op) : Sys :=
  match op with
  | .pick o => { s with app := openFileDialog s.app o }
  | .clear => { s with app := removeFile s.app }
  | .trigger =>
      if buttonEnabled s.app then
        match transcribeStart s.app with
        | .rejected a => { s with app := a }
        | .started a => { app := a, inflight := s.inflight + 1 }
      else s
  | .resolve o =>
      if s.inflight = 0 then s
      else { app := transcribeFinish s.app o, inflight := s.inflight - 1 }

/-- Run a sequence of events from the initial state. -/
def runOps (ops : List Op) : Sys :=
  ops.foldl uiStep { app := initState, inflight := 0 }

/-- Neither branch of `openFileDialog` touches `isProcessing`. -/
lemma openFileDialog_isProcessing (s : AppState) (o : PickOutcome) :
    (openFileDialog s o).isProcessing = s.isProcessing := by
  cases o <;> rfl

/-- Every branch of the continuation (success, engine failure, throw)
ends with `isProcessing = false` via the `finally` clause. -/
lemma transcribeFinish_isProcessing (s : AppState) (o : InvokeOutcome) :
    (transcribeFinish s o).isProcessing = false := by
  cases o with
  | ok r =>
      by_cases h : r.success <;> simp [transcribeFinish, h]
  | threw e => rfl

/-- The continuation never touches the selection fields. -/
lemma transcribeFinish_audioFile (s : AppState) (o : InvokeOutcome) :
    (transcribeFinish s o).audioFile = s.audioFile := by
  cases o with
  | ok r =>
      by_cases h : r.success <;> simp [transcribeFinish, h]
  | threw e => rfl

/-- Invariant of the event-loop model: the number of outstanding engine
calls is 1 exactly while `isProcessing` is set, 0 otherwise. -/
def invSys (s : Sys) : Prop :=
  s.inflight = if s.app.isProcessing then 1 else 0

lemma uiStep_inv (s : Sys) (op : Op) (h : invSys s) : invSys (uiStep s op) := by
  unfold invSys at h ⊢
  cases op with
  | pick o =>
      simpa [uiStep, openFileDialog_isProcessing] using h
  | clear =>
      simpa [uiStep, removeFile] using h
  | trigger =>
      by_cases hb : buttonEnabled s.app = true
      · have hp : s.app.isProcessing = false := by
          unfold buttonEnabled at hb
          simp only [Bool.and_eq_true, Bool.not_eq_true'] at hb
          exact hb.2
        have h0 : s.inflight = 0 := by rw [h, hp]; rfl
        unfold uiStep transcribeStart
        rw [hb]
        by_cases hg : s.app.audioFile = none ∨ s.app.audioFilePath = ""
        · simp only [if_pos hg]
          simpa [hp] using h0
        · simp only [if_neg hg]
          simp [h0]
      · simp only [Bool.not_eq_true] at hb
        simp only [uiStep, hb, Bool.false_eq_true, if_false]
        exact h
  | resolve o =>
      by_cases h0 : s.inflight = 0
      · simp only [uiStep, if_pos h0]
        exact h
      · simp only [uiStep, if_neg h0]
        simp [transcribeFinish_isProcessing]
        have hp : s.app.isProcessing = true := by
          by_contra hc
          simp only [Bool.not_eq_true] at hc
          rw [hc] at h
          simp at h
          exact h0 h
        rw [hp] at h
        simp at h
        omega

lemma foldl_uiStep_inv (ops : List Op) (s : Sys) (h : invSys s) :
    invSys (ops.foldl uiStep s) := by
  induction ops generalizing s with
  | nil => exact h
  | cons op rest ih => exact ih _ (uiStep_inv s op h)


/-- A state with a valid selection while a request is already in flight
(`isProcessing = true`). -/
def busyState : AppState :=
  { audioFile := some { name := "a.mp3", size := 0 },
    audioFilePath := "/tmp/a.mp3",
    isProcessing := true, transcription := "", error := "" }

/-- C1 counterexample: with a request already in flight
(`isProcessing = true`) and a valid selection, `transcribeAudio`'s own
guard does NOT reject the trigger — it starts a second request
(`isStarted = true`), because the guard checks only the selection, never
`isProcessing`. The claimed orchestrator-level check does not exist. -/
theorem C1_trigger_not_rejected_while_busy :
    busyState.isProcessing = true ∧
    (transcribeStart busyState).isStarted = true ∧
    transcribeStart busyState =
      .started { busyState with isProcessing := true, error := "",
                                transcription := "" } := by
  refine ⟨rfl, ?_, ?_⟩ <;> rfl

/-- C1 (amended): at most one engine call is outstanding at any instant
for every sequence of UI events, because the trigger button carries
`:disabled="isProcessing"` — the enforcement lives in the UI binding, not
in `transcribeAudio` itself. -/
theorem C1_at_most_one_inflight (ops : List Op) : (runOps ops).inflight ≤ 1 := by
  have h := foldl_uiStep_inv ops { app := initState, inflight := 0 } (by rfl)
  unfold runOps
  unfold invSys at h
  split at h <;> omega

/-- C2: whenever no Selection exists (no file object or empty path),
triggering yields the `rejected` branch: no request is created, the state
change is exactly setting the validation error, so `isProcessing` and
`transcription` are untouched. -/
theorem C2_no_selection_rejected (s : AppState)
    (h : s.audioFile = none ∨ s.audioFilePath = "") :
    transcribeStart s = .rejected { s with error := "Файл не выбран" } ∧
    (transcribeStart s).isStarted = false ∧
    (transcribeStart s).state.isProcessing = s.isProcessing ∧
    (transcribeStart s).state.transcription = s.transcription := by
  have he : transcribeStart s = .rejected { s with error := "Файл не выбран" } := by
    unfold transcribeStart
    rw [if_pos h]
  refine ⟨he, ?_, ?_, ?_⟩ <;> rw [he] <;> rfl

/-- C2 witness: triggering from the initial state (no selection). -/
theorem C2_no_selection_rejected_witness :
    transcribeStart initState = .rejected { initState with error := "Файл не выбран" } :=
  (C2_no_selection_rejected initState (Or.inl rfl)).1

/-- C3: an engine outcome with `success = true` stores the text payload
verbatim and ends processing; a diagnostic arriving alongside success
(whatever `w` is) leaves the resulting state identical. -/
theorem C3_success_verbatim (s : AppState) (r : TranscribeResult)
    (h : r.success = true) :
    transcribeFinish s (.ok r) =
      { s with transcription := r.text, isProcessing := false } ∧
    ∀ w : String, transcribeFinish s (.ok { r with error := some w }) =
      { s with transcription := r.text, isProcessing := false } := by
  refine ⟨?_, fun w => ?_⟩ <;> simp [transcribeFinish, h]

/-- C3 witness: engine success with text `hello world` and a warning. -/
theorem C3_success_verbatim_witness :
    transcribeFinish initState
        (.ok { text := "hello world", success := true, error := some "w" }) =
      { initState with transcription := "hello world", isProcessing := false } :=
  (C3_success_verbatim initState
    { text := "hello world", success := true, error := some "w" } rfl).1

/-- C4 counterexample: with `success = false` and the diagnostic present
but empty (`error = some ""`), the stored message is the generic fallback,
not the present diagnostic `""` — so "errorMessage equals the diagnostic
whenever one is present" fails at this input. -/
theorem C4_empty_diagnostic_not_used :
    (transcribeFinish initState
        (.ok { text := "", success := false, error := some "" })).error
      = fallbackError ∧
    (transcribeFinish initState
        (.ok { text := "", success := false, error := some "" })).error
      ≠ "" := by
  refine ⟨rfl, ?_⟩
  decide

/-- C4 (amended): on `success = false` the request ends processing; the
stored message is the diagnostic whenever one is present AND non-empty,
and the generic fallback when it is absent or empty. -/
theorem C4_failure_message (s : AppState) (r : TranscribeResult)
    (h : r.success = false) :
    (transcribeFinish s (.ok r)).isProcessing = false ∧
    (∀ m : String, r.error = some m → m ≠ "" →
      (transcribeFinish s (.ok r)).error = m) ∧
    ((r.error = none ∨ r.error = some "") →
      (transcribeFinish s (.ok r)).error = fallbackError) := by
  refine ⟨transcribeFinish_isProcessing s _, ?_, ?_⟩
  · intro m hm hne
    simp [transcribeFinish, h, jsOrElse, hm, hne]
  · rintro (hm | hm) <;> simp [transcribeFinish, h, jsOrElse, hm]

/-- C4 witness: engine failure with message `model not found`. -/
theorem C4_failure_message_witness :
    (transcribeFinish initState
        (.ok { text := "", success := false, error := some "model not found" })).error
      = "model not found" :=
  (C4_failure_message initState
    { text := "", success := false, error := some "model not found" } rfl).2.1
    "model not found" rfl (by decide)

/-- C5: a transport failure (the `invoke` call throws with description
`e`) ends in the Failed shape: the error message is the fixed prefix
applied to the transport description, `isProcessing` is reset, and the
message is never empty. -/
theorem C5_transport_failure (s : AppState) (e : String) :
    transcribeFinish s (.threw e) =
      { s with error := "Ошибка при расшифровке: " ++ e,
               isProcessing := false } ∧
    (transcribeFinish s (.threw e)).error ≠ "" := by
  refine ⟨rfl, ?_⟩
  show "Ошибка при расшифровке: " ++ e ≠ ""
  intro hc
  have hl := congrArg String.length hc
  rw [String.length_append] at hl
  have h1 : ("Ошибка при расшифровке: ").length = 24 := rfl
  have h2 : ("" : String).length = 0 := rfl
  omega

/-- C6: every terminal outcome — success, engine-reported failure, or
transport failure — resets `isProcessing`, preserves the selection, and
therefore re-enables the trigger button exactly when a file is still
selected. -/
theorem C6_terminal_reenables_trigger (s : AppState) (o : InvokeOutcome) :
    (transcribeFinish s o).isProcessing = false ∧
    (transcribeFinish s o).audioFile = s.audioFile ∧
    buttonEnabled (transcribeFinish s o) = s.audioFile.isSome := by
  refine ⟨transcribeFinish_isProcessing s o, transcribeFinish_audioFile s o, ?_⟩
  unfold buttonEnabled
  rw [transcribeFinish_isProcessing, transcribeFinish_audioFile]
  simp

/-- C7: from every prior state, a pick that returns a path replaces the
selection with that path, derives the display name from the final path
segment, and clears the prior transcription and error. -/
theorem C7_pick_replaces_and_clears (s : AppState) (p : String) :
    openFileDialog s (.picked p) =
      { s with audioFilePath := p,
               audioFile := some { name := fileNameOf p, size := 0 },
               error := "", transcription := "" } := rfl

/-- C8: from every prior state, a cancelled pick leaves the whole state —
selection, path, transcription, error, processing flag — exactly as it
was, and produces no error message. -/
theorem C8_cancel_is_noop (s : AppState) :
    openFileDialog s .cancelled = s := rfl

/-- C9: `removeFile` unconditionally resets the selection, path,
transcription and error from every starting state, and applying it twice
gives the same state as applying it once. -/
theorem C9_clear_resets_and_idempotent (s : AppState) :
    (removeFile s).audioFile = none ∧
    (removeFile s).audioFilePath = "" ∧
    (removeFile s).transcription = "" ∧
    (removeFile s).error = "" ∧
    removeFile (removeFile s) = removeFile s :=
  ⟨rfl, rfl, rfl, rfl, rfl⟩

/-- C10: on engine failure, a present-but-empty diagnostic is treated
exactly like an absent one (JS `||` falsiness): the resulting state is the
same as with no diagnostic, the stored message is the generic fallback,
and the Failed message is never the empty string. -/
theorem C10_empty_diagnostic_like_absent (s : AppState) (r : TranscribeResult)
    (h : r.success = false) :
    (r.error = some "" →
      transcribeFinish s (.ok r) =
        transcribeFinish s (.ok { r with error := none })) ∧
    (r.error = some "" →
      (transcribeFinish s (.ok r)).error = fallbackError) ∧
    (transcribeFinish s (.ok r)).error ≠ "" := by
  refine ⟨?_, ?_, ?_⟩
  · intro hm
    simp [transcribeFinish, h, jsOrElse, hm]
  · intro hm
    simp [transcribeFinish, h, jsOrElse, hm]
  · have hf : fallbackError ≠ "" := by decide
    cases hm : r.error with
    | none => simpa [transcribeFinish, h, jsOrElse, hm] using hf
    | some m =>
        by_cases hme : m = ""
        · simpa [transcribeFinish, h, jsOrElse, hm, hme] using hf
        · simp [transcribeFinish, h, jsOrElse, hm, hme]

/-- C10 witness: failure outcome carrying `error = some ""`. -/
theorem C10_empty_diagnostic_like_absent_witness :
    (transcribeFinish initState
        (.ok { text := "", success := false, error := some "" })).error
      = fallbackError :=
  (C10_empty_diagnostic_like_absent initState
    { text := "", success := false, error := some "" } rfl).2.1 rfl
